import Mathlib

/-!
Shallow embedding of the Visual Element Locator of
`src/windows_client_websocket.py` (class `WindowsClientWebSocket`).

External OpenCV / pyautogui primitives (screenshot capture, ORB keypoint
detection, `knnMatch`, `findHomography` + `perspectiveTransform`,
`matchTemplate` + `minMaxLoc`, `np.where`) are external collaborators: each
call happens at most once per locator run, so its output for that call is
passed to the embedded function as an input.  Python floats are modelled
exactly over `ℚ`; the comparison `std > 100` on a standard deviation is
embedded as the equivalent `variance > 100^2`, and the Euclidean-distance
comparison `sqrt(dx^2+dy^2) < m * 0.5` as the equivalent
`4*(dx^2+dy^2) < m^2`, both to stay inside computable rational arithmetic.
-/

namespace WindowsClient

/-- A pixel coordinate `(x, y)` on the screen capture. -/
abbrev Loc := Int × Int

/-- Truncation toward zero, the semantics of Python `int()` on a float. -/
def truncQ (q : ℚ) : Int := if 0 ≤ q then ⌊q⌋ else -⌊-q⌋

/-! ### Offsets (`_click_element`, lines 1035-1053)

A JSON number arriving in `command['offset']` is either an `int` or a
`float`; the code branches on `isinstance(offset_x, float)`. -/

/-- A JSON numeric value: Python `int` or Python `float` (modelled as `ℚ`). -/
inductive JsonNum
  | jint (n : Int)
  | jfloat (q : ℚ)
deriving DecidableEq

/-- The `offset` field of a click command.  `malformed` stands for any value
on which `offset.get('x', 0)` or the later `coords[0] + offset_x` raises
(e.g. a non-dict, or a string component); the exception is caught by the
outer handler of `_click_element`. -/
inductive OffsetData
  | valid (x y : JsonNum)
  | malformed
deriving DecidableEq

/-- `_click_element` offset resolution for one component: a float in
`[-1.0, 1.0]` is a percentage of the screen dimension (`int(offset_x *
screen_size.width)`), anything else is used as-is. -/
def resolve_offset_component (v : JsonNum) (dim : Nat) : ℚ :=
  match v with
  | .jint n => (n : ℚ)
  | .jfloat q => if -1 ≤ q ∧ q ≤ 1 then ((truncQ (q * dim) : Int) : ℚ) else q

/-! ### The hybrid fallback chain (`_find_element_hybrid`, lines 921-953) -/

/-- Outcomes of the external searches performed during one `_click_element`
request: the result each strategy would report on the current screen, and
the screen dimensions reported by `pyautogui.size()`. -/
structure LocatorOracle where
  findAllResult : List Loc
  orbResult : Option Loc
  corrResult : Option Loc
  edgeResult : Option Loc
  screenW : Nat
  screenH : Nat
deriving DecidableEq

/-- `_find_element_hybrid`: try ORB, then template matching, then edge
matching, returning the first non-`None` result.  Besides the coordinate we
record which fallback strategies were actually invoked (the source calls
them as side-effecting methods): `(result, templateInvoked, edgesInvoked)`;
ORB is always invoked first. -/
def find_element_hybrid (orc : LocatorOracle) : Option Loc × Bool × Bool :=
  match orc.orbResult with
  | some coords => (some coords, false, false)
  | none =>
    match orc.corrResult with
    | some coords => (some coords, true, false)
    | none => (orc.edgeResult, true, true)

/-! ### `_click_element` (lines 955-1087) -/

/-- A parsed `click_element` command. -/
structure ClickCommand where
  element : String
  index : Nat
  button : String
  offset : OffsetData
  wantBefore : Bool
  wantAfter : Bool
deriving DecidableEq

inductive RespStatus
  | success
  | error
deriving DecidableEq

/-- The observable outcome of `_click_element`: the response fields the
claims inspect, plus effect flags recording whether any matching/scanning
work ran and whether the before-screenshot was taken. -/
structure ClickOutcome where
  status : RespStatus
  message : String
  clickedAt : Option (ℚ × ℚ)
  scanned : Bool
  tookBefore : Bool
deriving DecidableEq

def valid_buttons : List String := ["left", "right", "middle"]

def invalidButtonMsg (b : String) : String :=
  "Invalid button: " ++ b ++ ". Must be \"left\", \"right\", or \"middle\""

def indexOutOfRangeMsg (idx n : Nat) : String :=
  "Index " ++ toString idx ++ " out of range. Found " ++ toString n ++
    " matches (indices 0-" ++ toString (n - 1) ++ ")"

def notFoundMsg (e : String) : String := "Element not found: " ++ e

/-- The `except`-handler response; the suffix after the colon is the Python
exception text, abstracted here. -/
def clickFailedMsg : String := "Failed to click element: "

/-- Offset application and click (lines 1035-1080).  A `malformed` offset
raises at `offset.get` / `coords[0] + offset_x` and is caught by the outer
handler; a valid offset produces the success response with
`clicked_at = coords + resolved offset`.  The success message's button and
offset suffixes are elided. -/
def apply_offset_and_click (cmd : ClickCommand) (orc : LocatorOracle)
    (coords : Loc) : ClickOutcome :=
  match cmd.offset with
  | .malformed =>
    { status := .error, message := clickFailedMsg, clickedAt := none,
      scanned := true, tookBefore := cmd.wantBefore }
  | .valid ox oy =>
    let rx := resolve_offset_component ox orc.screenW
    let ry := resolve_offset_component oy orc.screenH
    { status := .success, message := "Clicked element: " ++ cmd.element,
      clickedAt := some ((coords.1 : ℚ) + rx, (coords.2 : ℚ) + ry),
      scanned := true, tookBefore := cmd.wantBefore }

/-- Lines 1019-1033: once location is settled, a `None` coordinate yields
the structured element-not-found error, otherwise the offset is applied and
the click performed. -/
def after_find (cmd : ClickCommand) (orc : LocatorOracle)
    (coords : Option Loc) : ClickOutcome :=
  match coords with
  | none =>
    { status := .error, message := notFoundMsg cmd.element, clickedAt := none,
      scanned := true, tookBefore := cmd.wantBefore }
  | some c => apply_offset_and_click cmd orc c

/-- `_click_element`: validate the button, take the before screenshot, then
locate (multi-instance path for `index > 0`, hybrid chain otherwise),
apply the offset and click. -/
def click_element (cmd : ClickCommand) (orc : LocatorOracle) : ClickOutcome :=
  if cmd.button ∉ valid_buttons then
    { status := .error, message := invalidButtonMsg cmd.button,
      clickedAt := none, scanned := false, tookBefore := false }
  else
    if 0 < cmd.index then
      let all := orc.findAllResult
      if all ≠ [] ∧ cmd.index < all.length then
        after_find cmd orc (some (all.getD cmd.index (0, 0)))
      else if all ≠ [] then
        { status := .error,
          message := indexOutOfRangeMsg cmd.index all.length,
          clickedAt := none, scanned := true, tookBefore := cmd.wantBefore }
      else
        after_find cmd orc (find_element_hybrid orc).1
    else
      after_find cmd orc (find_element_hybrid orc).1

/-! ### FeatureMatcher (`_find_element_by_orb`, lines 469-612) -/

/-- One entry of the `bf.knnMatch(des_template, des_screenshot, k=2)`
output for a template keypoint: the distance to the nearest screen
descriptor (`d1`), the distance to the second nearest (`d2`), whether two
neighbours were actually returned (`len(match_pair) == 2`), and the screen
location `kp_screenshot[m.trainIdx].pt` of the nearest neighbour. -/
structure KnnPair where
  d1 : ℚ
  d2 : ℚ
  full : Bool
  pt : ℚ × ℚ
deriving DecidableEq

/-- The output of the external `cv2.findHomography` + `perspectiveTransform`
pair: the RANSAC inlier mask and the template's four corners projected into
screen space.  `none` models `M is None`. -/
structure HomogOut where
  mask : List Bool
  corners : List (ℚ × ℚ)
deriving DecidableEq

/-- Inputs of one `_find_element_by_orb` run: outputs of the external ORB
detector and matcher on the current template and screenshot. -/
structure OrbInput where
  tkp : Nat
  skp : Nat
  pairs : List KnnPair
  homog : Option HomogOut
  screenW : Nat
  screenH : Nat
deriving DecidableEq

/-- Mean of a list of rationals (`np.mean`). -/
def meanQ (l : List ℚ) : ℚ := l.sum / l.length

/-- Population variance (`np.std` squared): mean squared deviation. -/
def varQ (l : List ℚ) : ℚ := meanQ (l.map (fun x => (x - meanQ l) ^ 2))

/-- Lowe ratio-test filter (lines 542-548): keep a pair only when two
neighbours were returned and `m.distance < 0.75 * n.distance`. -/
def good_matches_of (pairs : List KnnPair) : List KnnPair :=
  pairs.filter (fun p => p.full && decide (p.d1 < 3 / 4 * p.d2))

/-- Line 557: `sorted(good_matches, key=lambda x: x.distance)` (stable). -/
def sorted_good_of (pairs : List KnnPair) : List KnnPair :=
  (good_matches_of pairs).insertionSort (fun a b => a.d1 ≤ b.d1)

/-- Line 565: `good_matches[:min(20, len(good_matches))]`. -/
def top_matches_of (pairs : List KnnPair) : List KnnPair :=
  (sorted_good_of pairs).take 20

def countTrue (mask : List Bool) : Nat := (mask.filter id).length

/-- Lines 593-594: the match centre is `int(np.mean(...))` of the four
projected corner coordinates. -/
def orbCenterX (hm : HomogOut) : Int := truncQ (meanQ (hm.corners.map Prod.fst))

def orbCenterY (hm : HomogOut) : Int := truncQ (meanQ (hm.corners.map Prod.snd))

/-- `_find_element_by_orb` after the external detector and matcher have
run.  Guards in source order: missing descriptors, `len(kp_template) < 10`,
fewer than 10 ratio-test survivors, best distance above 50, screen-point
spread above 100px in either axis (`std > 100`, embedded as
`variance > 10000`), no homography, projected centre outside screen
bounds, inlier ratio below 60% (inliers over all ratio-test survivors). -/
def find_element_by_orb (inp : OrbInput) : Option Loc :=
  if inp.tkp = 0 ∨ inp.skp = 0 then none
  else if inp.tkp < 10 then none
  else if (good_matches_of inp.pairs).length < 10 then none
  else
    match sorted_good_of inp.pairs with
    | [] => none
    | g0 :: _ =>
      if 50 < g0.d1 then none
      else if 10000 < varQ ((top_matches_of inp.pairs).map (fun p => p.pt.1)) ∨
          10000 < varQ ((top_matches_of inp.pairs).map (fun p => p.pt.2)) then
        none
      else
        match inp.homog with
        | none => none
        | some hm =>
          if 0 ≤ orbCenterX hm ∧ orbCenterX hm < (inp.screenW : Int) ∧
              0 ≤ orbCenterY hm ∧ orbCenterY hm < (inp.screenH : Int) then
            if (countTrue hm.mask : ℚ) / ((good_matches_of inp.pairs).length : ℚ)
                < 3 / 5 then none
            else some (orbCenterX hm, orbCenterY hm)
          else none

/-! ### CorrelationScanner (`_find_element_by_template`, lines 614-747) -/

/-- Per-scale measurements of one loop iteration: the scaled template's
dimensions (`scaled_template.shape`), and for each of the three
representations the `minMaxLoc` maximum score and its location. -/
structure ScaleMeas where
  th : Nat
  tw : Nat
  colorScore : ℚ
  colorLoc : Loc
  edgeScore : ℚ
  edgeLoc : Loc
  threshScore : ℚ
  threshLoc : Loc
deriving DecidableEq

/-- Lines 681-683: a scale is skipped when the scaled template exceeds the
screenshot in either dimension. -/
def fitsScreen (screenH screenW : Nat) (m : ScaleMeas) : Bool :=
  decide (m.th ≤ screenH ∧ m.tw ≤ screenW)

/-- Line 724: `(max_val * 0.5) + (edge_max_val * 0.3) + (thresh_max_val * 0.2)`. -/
def combinedScore (m : ScaleMeas) : ℚ :=
  m.colorScore * (1 / 2) + m.edgeScore * (3 / 10) + m.threshScore * (1 / 5)

/-- Lines 729-734: the location of the best individual method. -/
def bestIndivLoc (m : ScaleMeas) : Loc :=
  if m.colorScore ≥ m.edgeScore ∧ m.colorScore ≥ m.threshScore then m.colorLoc
  else if m.edgeScore ≥ m.threshScore then m.edgeLoc
  else m.threshLoc

/-- The running `(best_score, best_match)` pair; `best_match` holds the
top-left location and the scaled template shape `(th, tw)`. -/
structure BestState where
  score : ℚ
  best : Option (Loc × Nat × Nat)
deriving DecidableEq

/-- Lines 690-692: `if max_val > best_score` — the raw color score alone
updates the tracked best. -/
def stepColor (st : BestState) (m : ScaleMeas) : BestState :=
  if m.colorScore > st.score then
    { score := m.colorScore, best := some (m.colorLoc, m.th, m.tw) }
  else st

/-- Lines 726-734: `if combined_score > best_score` — the combined score
updates the tracked best with the best individual method's location. -/
def stepCombined (st : BestState) (m : ScaleMeas) : BestState :=
  if combinedScore m > st.score then
    { score := combinedScore m, best := some (bestIndivLoc m, m.th, m.tw) }
  else st

/-- One iteration of the scale loop (lines 670-734): skip oversized scales,
update the best with the raw color score, then with the combined score. -/
def stepScale (screenH screenW : Nat) (st : BestState) (m : ScaleMeas) :
    BestState :=
  if fitsScreen screenH screenW m then stepCombined (stepColor st m) m
  else st

def scanScales (screenH screenW : Nat) (ms : List ScaleMeas) : BestState :=
  ms.foldl (stepScale screenH screenW) { score := 0, best := none }

/-- Lines 742-744: centre of the best match from its top-left corner and
the stored shape `(h, w, _)`. -/
def centerOf (p : Loc × Nat × Nat) : Loc :=
  (p.1.1 + ((p.2.2 / 2 : Nat) : Int), p.1.2 + ((p.2.1 / 2 : Nat) : Int))

/-- `_find_element_by_template` after the external `matchTemplate` calls:
sweep the scales, reject when the tracked best score is below 0.6,
otherwise return the centre of the tracked best location. -/
def find_element_by_template (screenH screenW : Nat)
    (ms : List ScaleMeas) : Option Loc :=
  let st := scanScales screenH screenW ms
  if st.score < 3 / 5 then none else st.best.map centerOf

/-- Stated from the spec's words (section 4.3, steps 4-5), for comparison
with the source: the globally best COMBINED score across all non-skipped
scales.  The source additionally lets the raw color score alone update its
tracked best, so the two notions differ. -/
def spec_bestCombinedScore (screenH screenW : Nat) (ms : List ScaleMeas) : ℚ :=
  ((ms.filter (fitsScreen screenH screenW)).map combinedScore).foldl max 0

/-- The score the source actually tracks: the best over all non-skipped
scales of `max(colorScore, combinedScore)`. -/
def trackedBestScore (screenH screenW : Nat) (ms : List ScaleMeas) : ℚ :=
  ms.foldl
    (fun s m =>
      if fitsScreen screenH screenW m then
        max s (max m.colorScore (combinedScore m))
      else s) 0

/-! ### EdgeScanner (`_find_element_by_edges`, lines 749-822) -/

/-- Per-scale measurement for the edge scanner: scaled dilated-edge
template dimensions and the `minMaxLoc` best score and location. -/
structure EdgeMeas where
  th : Nat
  tw : Nat
  score : ℚ
  loc : Loc
deriving DecidableEq

/-- One iteration of the edge-scanner scale loop (lines 802-814): skip
oversized scales; a better score stores the centre directly. -/
def stepEdge (screenH screenW : Nat) (st : ℚ × Option Loc) (m : EdgeMeas) :
    ℚ × Option Loc :=
  if m.th ≤ screenH ∧ m.tw ≤ screenW then
    if m.score > st.1 then
      (m.score, some (m.loc.1 + ((m.tw / 2 : Nat) : Int),
                      m.loc.2 + ((m.th / 2 : Nat) : Int)))
    else st
  else st

/-- The edge scanner's scale loop: running `(best_score, best_match)`. -/
def edgeScan (screenH screenW : Nat) (ms : List EdgeMeas) : ℚ × Option Loc :=
  ms.foldl (stepEdge screenH screenW) ((0 : ℚ), (none : Option Loc))

/-- `_find_element_by_edges` after the external `matchTemplate` calls:
best edge score below 0.45 means no match. -/
def find_element_by_edges (screenH screenW : Nat)
    (ms : List EdgeMeas) : Option Loc :=
  if (edgeScan screenH screenW ms).1 < 9 / 20 then none
  else (edgeScan screenH screenW ms).2

/-! ### MultiInstanceFinder (`_find_all_elements_by_template`, lines 824-919) -/

/-- One candidate location from `np.where(result >= threshold)`: the
top-left point and its score `result[pt[1], pt[0]]`. -/
structure Cand where
  x : Int
  y : Int
  score : ℚ
deriving DecidableEq

/-- Lines 869-874: candidate centres `(pt + template_dim // 2, score)`. -/
def matchesOf (tw th : Nat) (cands : List Cand) : List (Loc × ℚ) :=
  cands.map (fun c =>
    ((c.x + ((tw / 2 : Nat) : Int), c.y + ((th / 2 : Nat) : Int)), c.score))

/-- Lines 890-892: `sqrt((x-ax)^2 + (y-ay)^2) < max(template_w, template_h)
* 0.5`, embedded squared: `4 * dist^2 < max^2`. -/
def tooClose (tw th : Nat) (p q : Loc) : Bool :=
  decide (4 * ((p.1 - q.1) ^ 2 + (p.2 - q.2) ^ 2) < ((max tw th : Nat) : Int) ^ 2)

/-- Lines 885-897: greedy distance-based non-max suppression over the
score-descending candidate list; `acc` is `filtered_matches`. -/
def nmsLoop (tw th : Nat) : List (Loc × ℚ) → List (Loc × ℚ) → List (Loc × ℚ)
  | [], acc => acc
  | c :: rest, acc =>
    if acc.any (fun a => tooClose tw th c.1 a.1) then nmsLoop tw th rest acc
    else nmsLoop tw th rest (acc ++ [c])

/-- Line 883: `sorted(matches, key=lambda x: x[2], reverse=True)` — a
stable descending sort by score, then the suppression loop. -/
def filtered_matches_of (tw th : Nat) (cands : List Cand) : List (Loc × ℚ) :=
  nmsLoop tw th
    ((matchesOf tw th cands).insertionSort (fun a b => b.2 ≤ a.2)) []

def listMaxI : List Int → Int
  | [] => 0
  | x :: l => l.foldl max x

def listMinI : List Int → Int
  | [] => 0
  | x :: l => l.foldl min x

/-- Lines 902-905: spreads of the accepted centres. -/
def xRangeOf (f : List (Loc × ℚ)) : Int :=
  listMaxI (f.map (fun m => m.1.1)) - listMinI (f.map (fun m => m.1.1))

def yRangeOf (f : List (Loc × ℚ)) : Int :=
  listMaxI (f.map (fun m => m.1.2)) - listMinI (f.map (fun m => m.1.2))

/-- Lines 901-916: when more than one match survived, sort ascending along
the dominant layout axis (`if x_range > y_range` by x, else by y); Python
`list.sort` is stable, modelled by `insertionSort`. -/
def layout_sorted (tw th : Nat) (cands : List Cand) : List (Loc × ℚ) :=
  let f := filtered_matches_of tw th cands
  if 1 < f.length then
    if yRangeOf f < xRangeOf f then f.insertionSort (fun a b => a.1.1 ≤ b.1.1)
    else f.insertionSort (fun a b => a.1.2 ≤ b.1.2)
  else f

/-- `_find_all_elements_by_template` after the external `matchTemplate`
call: centres, empty-result early return (line 876), suppression, layout
sort, and the final projection dropping scores (line 919). -/
def find_all_elements_by_template (tw th : Nat) (cands : List Cand) :
    List Loc :=
  if matchesOf tw th cands = [] then []
  else (layout_sorted tw th cands).map (fun m => m.1)

/-! ### TemplateStore cache (`self.templates_cache`)

`_find_element_by_orb` (lines 487-499), `_find_element_by_edges` and
`_find_all_elements_by_template` cache the raw decoded template on a
cache miss; `_find_element_by_template` (lines 629-658) instead upscales a
small template 2x with `INTER_CUBIC` and applies a bilateral filter before
caching.  All four share `self.templates_cache`, keyed by template name.
An image is modelled by its dimensions, an abstract pixel-content id, and
a flag recording whether the upscale/denoise preprocessing ran. -/

structure TImage where
  h : Nat
  w : Nat
  id : Nat
  preprocessed : Bool
deriving DecidableEq

/-- The on-disk template directory: name to raw decoded image (`none`
models a missing or undecodable file). -/
abbrev TemplateStore := String → Option TImage

abbrev TemplateCache := List (String × TImage)

def cacheLookup (cache : TemplateCache) (name : String) : Option TImage :=
  (cache.find? (fun p => p.1 = name)).map (fun p => p.2)

/-- Lines 641-654: if either dimension is below 100, upscale by 2 with
high-quality interpolation and bilateral-filter; dimensions double, the
pixel-content id is preserved, and the preprocessing flag is set. -/
def preprocess_small (t : TImage) : TImage :=
  if t.h < 100 ∨ t.w < 100 then
    { h := 2 * t.h, w := 2 * t.w, id := t.id, preprocessed := true }
  else t

/-- Template load as performed by `_find_element_by_orb` (also by
`_find_element_by_edges` and `_find_all_elements_by_template`): on a cache
miss the raw image is cached. -/
def load_template_orb (store : TemplateStore) (cache : TemplateCache)
    (name : String) : TemplateCache × Option TImage :=
  match cacheLookup cache name with
  | some t => (cache, some t)
  | none =>
    match store name with
    | none => (cache, none)
    | some t => ((name, t) :: cache, some t)

/-- Template load as performed by `_find_element_by_template`: on a cache
miss the preprocessed image is cached and used. -/
def load_template_corr (store : TemplateStore) (cache : TemplateCache)
    (name : String) : TemplateCache × Option TImage :=
  match cacheLookup cache name with
  | some t => (cache, some t)
  | none =>
    match store name with
    | none => (cache, none)
    | some t =>
      let t2 := preprocess_small t
      ((name, t2) :: cache, some t2)

/-- The template the correlation scan works on when it runs after the
feature matcher in the hybrid chain, starting from an empty cache: ORB
loads (and caches) first, then `_find_element_by_template` loads. -/
def used_template_corr_after_orb (store : TemplateStore) (name : String) :
    Option TImage :=
  let st := load_template_orb store [] name
  (load_template_corr store st.1 name).2

/-! ### Bounds predicates (data-model invariant, spec section 3)

`cv2.matchTemplate(screen, templ)` returns an array of size
`(H - th + 1, W - tw + 1)`, so any location the external call reports
satisfies `0 <= x <= W - tw` and `0 <= y <= H - th`; these range
constraints on the external outputs are the hypotheses of the bounds
invariant. -/

/-- A match coordinate lies within the screen capture's bounds. -/
def inBounds (screenH screenW : Nat) (c : Loc) : Prop :=
  0 ≤ c.1 ∧ c.1 < (screenW : Int) ∧ 0 ≤ c.2 ∧ c.2 < (screenH : Int)

/-- A top-left location reported by `matchTemplate` for a `th x tw`
template on a `screenH x screenW` capture. -/
def locInRange (screenH screenW th tw : Nat) (loc : Loc) : Prop :=
  0 ≤ loc.1 ∧ loc.1 + (tw : Int) ≤ (screenW : Int) ∧
    0 ≤ loc.2 ∧ loc.2 + (th : Int) ≤ (screenH : Int)

/-- Validity of one correlation-scanner scale measurement: nonzero scaled
template dimensions and all three reported locations in matchTemplate
range. -/
def validMeas (screenH screenW : Nat) (m : ScaleMeas) : Prop :=
  1 ≤ m.th ∧ 1 ≤ m.tw ∧
    locInRange screenH screenW m.th m.tw m.colorLoc ∧
    locInRange screenH screenW m.th m.tw m.edgeLoc ∧
    locInRange screenH screenW m.th m.tw m.threshLoc

/-- Validity of one edge-scanner scale measurement. -/
def validEdgeMeas (screenH screenW : Nat) (m : EdgeMeas) : Prop :=
  1 ≤ m.th ∧ 1 ≤ m.tw ∧ locInRange screenH screenW m.th m.tw m.loc

/-- Validity of one multi-instance candidate from `np.where` over the
matchTemplate result. -/
def validCand (screenH screenW tw th : Nat) (c : Cand) : Prop :=
  0 ≤ c.x ∧ c.x + (tw : Int) ≤ (screenW : Int) ∧
    0 ≤ c.y ∧ c.y + (th : Int) ≤ (screenH : Int)

/-! ## Claims -/

/-- C1: for every locate request with `index == 0`, the locator tries
FeatureMatcher (ORB), then CorrelationScanner, then EdgeScanner, in that
order, returning the first non-`None` coordinate without invoking later
strategies; if all three return `None`, the request yields the structured
element-not-found error response rather than a raised exception. -/
theorem claim_c1_fallback_chain :
    (∀ (orc : LocatorOracle) (c : Loc), orc.orbResult = some c →
      find_element_hybrid orc = (some c, false, false)) ∧
    (∀ (orc : LocatorOracle) (c : Loc), orc.orbResult = none →
      orc.corrResult = some c →
      find_element_hybrid orc = (some c, true, false)) ∧
    (∀ orc : LocatorOracle, orc.orbResult = none → orc.corrResult = none →
      find_element_hybrid orc = (orc.edgeResult, true, true)) ∧
    (∀ (cmd : ClickCommand) (orc : LocatorOracle), cmd.index = 0 →
      cmd.button ∈ valid_buttons →
      orc.orbResult = none → orc.corrResult = none → orc.edgeResult = none →
      click_element cmd orc =
        { status := .error, message := notFoundMsg cmd.element,
          clickedAt := none, scanned := true, tookBefore := cmd.wantBefore }) := by
  refine ⟨?_, ?_, ?_, ?_⟩
  · intro orc c h
    simp [find_element_hybrid, h]
  · intro orc c h1 h2
    simp [find_element_hybrid, h1, h2]
  · intro orc h1 h2
    simp [find_element_hybrid, h1, h2]
  · intro cmd orc hidx hbtn h1 h2 h3
    simp [click_element, hidx, hbtn, after_find, find_element_hybrid, h1, h2, h3]

/-- C1 witness: a request for element `e` with `index = 0` where all three
strategies find nothing yields the structured not-found error. -/
theorem claim_c1_fallback_chain_witness :
    click_element
      { element := "e", index := 0, button := "left",
        offset := .valid (.jint 0) (.jint 0),
        wantBefore := false, wantAfter := false }
      { findAllResult := [], orbResult := none, corrResult := none,
        edgeResult := none, screenW := 100, screenH := 100 } =
      { status := .error, message := notFoundMsg "e", clickedAt := none,
        scanned := true, tookBefore := false } :=
  claim_c1_fallback_chain.2.2.2 _ _ rfl (by decide) rfl rfl rfl

/-- C2 (amended): when the multi-instance finder returns a NON-EMPTY set
with fewer than `index+1` entries, the request fails with an
index-out-of-range error whose message includes the actual count; when the
set has at least `index+1` entries, the `index`-th entry of the spatially
ordered set is the coordinate clicked.  (An empty set does not produce an
index error: the request falls through to the single-instance chain, see
the counterexample.) -/
theorem claim_c2_index_out_of_range :
    (∀ (cmd : ClickCommand) (orc : LocatorOracle),
      cmd.button ∈ valid_buttons → 0 < cmd.index →
      orc.findAllResult ≠ [] → orc.findAllResult.length ≤ cmd.index →
      click_element cmd orc =
        { status := .error,
          message := indexOutOfRangeMsg cmd.index orc.findAllResult.length,
          clickedAt := none, scanned := true, tookBefore := cmd.wantBefore }) ∧
    (∀ idx n : Nat, ∃ s t : String,
      indexOutOfRangeMsg idx n = s ++ toString n ++ t) ∧
    (∀ (cmd : ClickCommand) (orc : LocatorOracle) (ox oy : JsonNum),
      cmd.button ∈ valid_buttons → 0 < cmd.index →
      cmd.index < orc.findAllResult.length → cmd.offset = .valid ox oy →
      click_element cmd orc =
        apply_offset_and_click cmd orc
          (orc.findAllResult.getD cmd.index (0, 0))) := by
  refine ⟨?_, ?_, ?_⟩
  · intro cmd orc hbtn hidx hne hlen
    have hnotlt : ¬ cmd.index < orc.findAllResult.length := by omega
    simp [click_element, hbtn, hidx, hne, hnotlt]
  · intro idx n
    exact ⟨"Index " ++ toString idx ++ " out of range. Found ",
      " matches (indices 0-" ++ toString (n - 1) ++ ")",
      by simp [indexOutOfRangeMsg, String.append_assoc]⟩
  · intro cmd orc ox oy hbtn hidx hlt hoff
    have hne : orc.findAllResult ≠ [] := by
      intro h
      rw [h] at hlt
      simp at hlt
    simp [click_element, hbtn, hidx, hne, hlt, after_find]

/-- C2 witness: index 2 into a two-element ordered set fails with the
count 2 reported in the message. -/
theorem claim_c2_index_out_of_range_witness :
    click_element
      { element := "e", index := 2, button := "left",
        offset := .valid (.jint 0) (.jint 0),
        wantBefore := false, wantAfter := false }
      { findAllResult := [(1, 1), (2, 2)], orbResult := none,
        corrResult := none, edgeResult := none,
        screenW := 100, screenH := 100 } =
      { status := .error, message := indexOutOfRangeMsg 2 2,
        clickedAt := none, scanned := true, tookBefore := false } :=
  claim_c2_index_out_of_range.1 _ _ (by decide) (by decide) (by decide)
    (by decide)

/-- C2 counterexample: the claim as stated also covers an EMPTY match set
(0 entries is fewer than `index+1`), but there the code does not fail with
an index error — it falls through to the hybrid chain and succeeds. -/
theorem claim_c2_counterexample :
    (click_element
      { element := "e", index := 1, button := "left",
        offset := .valid (.jint 0) (.jint 0),
        wantBefore := false, wantAfter := false }
      { findAllResult := [], orbResult := some (7, 9), corrResult := none,
        edgeResult := none, screenW := 100, screenH := 100 }).status =
      .success := by
  decide

/-- C3: offsets are applied after a match coordinate is obtained, adding
the resolved delta to that coordinate; an integer component is added as
pixels, a float component in `[-1.0, 1.0]` is multiplied by the screen
width (x) or height (y) and truncated to int.  Concretely: a match at
(500,500) with offset `{x: -100, y: 0}` clicks (400,500), and offset
`{x: 0.1, y: 0}` on a 1000px-wide screen clicks (600,500). -/
theorem claim_c3_offset_application :
    (∀ (n : Int) (dim : Nat),
      resolve_offset_component (.jint n) dim = (n : ℚ)) ∧
    (∀ (q : ℚ) (dim : Nat), -1 ≤ q → q ≤ 1 →
      resolve_offset_component (.jfloat q) dim = ((truncQ (q * dim) : Int) : ℚ)) ∧
    (∀ (cmd : ClickCommand) (orc : LocatorOracle) (c : Loc) (ox oy : JsonNum),
      cmd.button ∈ valid_buttons → cmd.index = 0 →
      cmd.offset = .valid ox oy → orc.orbResult = some c →
      (click_element cmd orc).clickedAt =
        some ((c.1 : ℚ) + resolve_offset_component ox orc.screenW,
              (c.2 : ℚ) + resolve_offset_component oy orc.screenH)) ∧
    ((click_element
        { element := "e", index := 0, button := "left",
          offset := .valid (.jint (-100)) (.jint 0),
          wantBefore := false, wantAfter := false }
        { findAllResult := [], orbResult := some (500, 500),
          corrResult := none, edgeResult := none,
          screenW := 1000, screenH := 800 }).clickedAt = some (400, 500)) ∧
    ((click_element
        { element := "e", index := 0, button := "left",
          offset := .valid (.jfloat (mkRat 1 10)) (.jint 0),
          wantBefore := false, wantAfter := false }
        { findAllResult := [], orbResult := some (500, 500),
          corrResult := none, edgeResult := none,
          screenW := 1000, screenH := 800 }).clickedAt = some (600, 500)) := by
  refine ⟨?_, ?_, ?_, ?_, ?_⟩
  · intro n dim
    simp [resolve_offset_component]
  · intro q dim h1 h2
    simp [resolve_offset_component, h1, h2]
  · intro cmd orc c ox oy hbtn hidx hoff horb
    simp [click_element, hbtn, hidx, after_find, find_element_hybrid, horb,
      apply_offset_and_click, hoff]
  · norm_num [click_element, after_find, find_element_hybrid,
      apply_offset_and_click, resolve_offset_component, valid_buttons]
  · norm_num [click_element, after_find, find_element_hybrid,
      apply_offset_and_click, resolve_offset_component, valid_buttons, truncQ]

/-- C3 witness: instantiates the percentage rule at `q = 0.1`,
`dim = 1000`, where the resolved delta is 100 pixels. -/
theorem claim_c3_offset_application_witness :
    resolve_offset_component (.jfloat (mkRat 1 10)) 1000 =
      ((truncQ (mkRat 1 10 * 1000) : Int) : ℚ) :=
  claim_c3_offset_application.2.1 (mkRat 1 10) 1000 (by decide) (by decide)

/-- C9 (amended): a button value outside left/right/middle is rejected
with a validation error before any screenshot is taken and before any
matching/scanning work; the code performs NO offset validation — a
malformed offset makes the request fail only after matching has already
run (see the counterexample). -/
theorem claim_c9_button_validation :
    ∀ (cmd : ClickCommand) (orc : LocatorOracle),
      cmd.button ∉ valid_buttons →
      click_element cmd orc =
        { status := .error, message := invalidButtonMsg cmd.button,
          clickedAt := none, scanned := false, tookBefore := false } := by
  intro cmd orc hbtn
  simp [click_element, hbtn]

/-- C9 witness: button "center" is rejected with no scanning and no
screenshot. -/
theorem claim_c9_button_validation_witness :
    click_element
      { element := "e", index := 0, button := "center",
        offset := .valid (.jint 0) (.jint 0),
        wantBefore := true, wantAfter := false }
      { findAllResult := [], orbResult := some (7, 9), corrResult := none,
        edgeResult := none, screenW := 100, screenH := 100 } =
      { status := .error, message := invalidButtonMsg "center",
        clickedAt := none, scanned := false, tookBefore := false } :=
  claim_c9_button_validation _ _ (by decide)

/-- C9 counterexample: a request with a malformed offset and a valid
button is NOT rejected before scanning; the before-screenshot is taken,
the matcher runs, and only then does the request fail (with the generic
exception-handler message, not a validation error). -/
theorem claim_c9_counterexample :
    (click_element
        { element := "e", index := 0, button := "left", offset := .malformed,
          wantBefore := true, wantAfter := false }
        { findAllResult := [], orbResult := some (7, 9), corrResult := none,
          edgeResult := none, screenW := 100, screenH := 100 }).scanned =
        true ∧
    (click_element
        { element := "e", index := 0, button := "left", offset := .malformed,
          wantBefore := true, wantAfter := false }
        { findAllResult := [], orbResult := some (7, 9), corrResult := none,
          edgeResult := none, screenW := 100, screenH := 100 }).tookBefore =
        true ∧
    (click_element
        { element := "e", index := 0, button := "left", offset := .malformed,
          wantBefore := true, wantAfter := false }
        { findAllResult := [], orbResult := some (7, 9), corrResult := none,
          edgeResult := none, screenW := 100, screenH := 100 }).message =
      clickFailedMsg := by
  refine ⟨by decide, by decide, by decide⟩

/-- C10: a click request with `index > 0` whose multi-instance search
returns an empty set does not report an index error: it falls through to
the single-instance hybrid chain, and a coordinate found there is clicked
(with the offset applied) regardless of the requested index. -/
theorem claim_c10_empty_set_fallback :
    ∀ (cmd : ClickCommand) (orc : LocatorOracle) (c : Loc) (ox oy : JsonNum),
      cmd.button ∈ valid_buttons → 0 < cmd.index →
      orc.findAllResult = [] → cmd.offset = .valid ox oy →
      (find_element_hybrid orc).1 = some c →
      click_element cmd orc =
        { status := .success, message := "Clicked element: " ++ cmd.element,
          clickedAt :=
            some ((c.1 : ℚ) + resolve_offset_component ox orc.screenW,
                  (c.2 : ℚ) + resolve_offset_component oy orc.screenH),
          scanned := true, tookBefore := cmd.wantBefore } := by
  intro cmd orc c ox oy hbtn hidx hall hoff hcoords
  simp [click_element, hbtn, hidx, hall, after_find, hcoords,
    apply_offset_and_click, hoff]

/-- C10 witness: index 3 with an empty multi-instance result falls through
to ORB, whose match at (7,9) is clicked. -/
theorem claim_c10_empty_set_fallback_witness :
    click_element
      { element := "e", index := 3, button := "left",
        offset := .valid (.jint 0) (.jint 0),
        wantBefore := false, wantAfter := false }
      { findAllResult := [], orbResult := some (7, 9), corrResult := none,
        edgeResult := none, screenW := 100, screenH := 100 } =
      { status := .success, message := "Clicked element: " ++ "e",
        clickedAt :=
          some (((7 : Int) : ℚ) + resolve_offset_component (.jint 0) 100,
                ((9 : Int) : ℚ) + resolve_offset_component (.jint 0) 100),
        scanned := true, tookBefore := false } :=
  claim_c10_empty_set_fallback _ _ (7, 9) (.jint 0) (.jint 0) (by decide)
    (by decide) rfl rfl rfl

/-- C6: the FeatureMatcher returns no match whenever any guard fails —
fewer than 10 template keypoints, fewer than 10 ratio-test survivors,
matched screen points spread above 100px standard deviation in either axis
(embedded as variance above 10000), no homography estimated, or fewer than
60% of the surviving correspondences being inliers, the ratio computed as
RANSAC inliers over the full count of ratio-test survivors. -/
theorem claim_c6_orb_guards :
    ∀ inp : OrbInput,
      (inp.tkp < 10 → find_element_by_orb inp = none) ∧
      ((good_matches_of inp.pairs).length < 10 →
        find_element_by_orb inp = none) ∧
      ((10000 < varQ ((top_matches_of inp.pairs).map (fun p => p.pt.1)) ∨
        10000 < varQ ((top_matches_of inp.pairs).map (fun p => p.pt.2))) →
        find_element_by_orb inp = none) ∧
      (inp.homog = none → find_element_by_orb inp = none) ∧
      (∀ hm : HomogOut, inp.homog = some hm →
        (countTrue hm.mask : ℚ) / ((good_matches_of inp.pairs).length : ℚ)
          < 3 / 5 →
        find_element_by_orb inp = none) := by
  intro inp
  refine ⟨?_, ?_, ?_, ?_, ?_⟩
  · intro h
    unfold find_element_by_orb
    repeat' split
    all_goals simp_all
  · intro h
    unfold find_element_by_orb
    repeat' split
    all_goals simp_all
  · intro h
    unfold find_element_by_orb
    repeat' split
    all_goals simp_all
  · intro h
    unfold find_element_by_orb
    repeat' split
    all_goals simp_all
  · intro hm hhm h
    unfold find_element_by_orb
    repeat' split
    all_goals simp_all

/-- C6 witness: a template with only 3 keypoints is rejected. -/
theorem claim_c6_orb_guards_witness :
    find_element_by_orb
      { tkp := 3, skp := 50, pairs := [], homog := none,
        screenW := 100, screenH := 100 } = none :=
  (claim_c6_orb_guards _).1 (by decide)

/-! ## Helper lemmas for the correlation scanner -/

theorem ite_gt_eq_max (s c : ℚ) : (if c > s then c else s) = max s c := by
  rcases le_or_lt c s with h | h
  · rw [if_neg (not_lt.mpr h), max_eq_left h]
  · rw [if_pos h, max_eq_right h.le]

theorem stepColor_score (st : BestState) (m : ScaleMeas) :
    (stepColor st m).score = max st.score m.colorScore := by
  rw [stepColor, apply_ite BestState.score, ite_gt_eq_max]

theorem stepCombined_score (st : BestState) (m : ScaleMeas) :
    (stepCombined st m).score = max st.score (combinedScore m) := by
  rw [stepCombined, apply_ite BestState.score, ite_gt_eq_max]

theorem stepScale_score (screenH screenW : Nat) (st : BestState)
    (m : ScaleMeas) :
    (stepScale screenH screenW st m).score =
      if fitsScreen screenH screenW m then
        max st.score (max m.colorScore (combinedScore m))
      else st.score := by
  rw [stepScale, apply_ite BestState.score, stepCombined_score,
    stepColor_score, max_assoc]

theorem scanScales_score (screenH screenW : Nat) (ms : List ScaleMeas) :
    (scanScales screenH screenW ms).score =
      trackedBestScore screenH screenW ms := by
  rw [scanScales, trackedBestScore]
  generalize h0 : ({ score := 0, best := none } : BestState) = st0
  have h1 : (0 : ℚ) = st0.score := by rw [← h0]
  rw [h1]
  clear h0 h1
  induction ms generalizing st0 with
  | nil => rfl
  | cons m rest ih =>
    rw [List.foldl_cons, List.foldl_cons, ih, stepScale_score]

theorem scanScales_invariant (screenH screenW : Nat) (ms : List ScaleMeas) :
    0 ≤ (scanScales screenH screenW ms).score ∧
      ((scanScales screenH screenW ms).best = none →
        (scanScales screenH screenW ms).score = 0) := by
  rw [scanScales]
  have key : ∀ (l : List ScaleMeas) (st : BestState),
      0 ≤ st.score → (st.best = none → st.score = 0) →
      0 ≤ (l.foldl (stepScale screenH screenW) st).score ∧
        ((l.foldl (stepScale screenH screenW) st).best = none →
          (l.foldl (stepScale screenH screenW) st).score = 0) := by
    intro l
    induction l with
    | nil => intro st h1 h2; exact ⟨h1, h2⟩
    | cons m rest ih =>
      intro st h1 h2
      rw [List.foldl_cons]
      apply ih
      · rw [stepScale_score]
        split
        · exact le_trans h1 (le_max_left _ _)
        · exact h1
      · intro hb
        rw [stepScale] at hb ⊢
        split at hb
        · rw [stepCombined] at hb
          split at hb
          · simp at hb
          · rw [stepColor] at hb
            split at hb
            · simp at hb
            · rw [if_pos (by assumption), stepCombined, if_neg (by assumption),
                stepColor, if_neg (by assumption)]
              exact h2 hb
        · rw [if_neg (by assumption)]
          exact h2 hb
  exact key ms _ le_rfl (fun _ => rfl)

/-- C4 (amended): at each non-skipped scale BOTH the raw color score and
the weighted combination 0.5*color + 0.3*edge + 0.2*threshold are
candidates for the tracked global best; the scanner returns no match
exactly when that tracked best (max over scales of
`max(color, combined)`) is below 0.6, and otherwise returns the centre of
the tracked best location. -/
theorem claim_c4_correlation_threshold :
    ∀ (screenH screenW : Nat) (ms : List ScaleMeas),
      (find_element_by_template screenH screenW ms = none ↔
        trackedBestScore screenH screenW ms < 3 / 5) ∧
      (∀ c : Loc, find_element_by_template screenH screenW ms = some c →
        ∃ p, (scanScales screenH screenW ms).best = some p ∧
          c = centerOf p) := by
  intro screenH screenW ms
  have hsc := scanScales_score screenH screenW ms
  have hinv := scanScales_invariant screenH screenW ms
  constructor
  · constructor
    · intro h
      by_contra hge
      rw [← hsc] at hge
      rw [find_element_by_template, if_neg hge] at h
      have hb : (scanScales screenH screenW ms).best = none := by
        cases hb2 : (scanScales screenH screenW ms).best with
        | none => rfl
        | some p => rw [hb2] at h; simp at h
      have h0 := hinv.2 hb
      rw [h0] at hge
      exact hge (by norm_num)
    · intro h
      rw [find_element_by_template, if_pos (by rw [hsc]; exact h)]
  · intro c h
    rw [find_element_by_template] at h
    split at h
    · exact absurd h (by simp)
    · rcases Option.map_eq_some'.mp h with ⟨p, hp, hc⟩
      exact ⟨p, hp, hc.symm⟩

/-- C4 witness: a single fitting scale whose color score is 0.9 yields a
match at the centre of the tracked best location (5,5). -/
theorem claim_c4_correlation_threshold_witness :
    ∃ p, (scanScales 100 100
        [{ th := 10, tw := 10, colorScore := mkRat 9 10, colorLoc := (0, 0),
           edgeScore := 0, edgeLoc := (0, 0), threshScore := 0,
           threshLoc := (0, 0) }]).best = some p ∧ ((5, 5) : Loc) = centerOf p :=
  (claim_c4_correlation_threshold 100 100 _).2 (5, 5)
    (by norm_num [find_element_by_template, scanScales, stepScale, stepColor,
      stepCombined, fitsScreen, combinedScore, centerOf])

/-- C4 counterexample: with a single scale scoring color 0.9, edge 0,
threshold 0, the best combined score is 0.45 < 0.6, yet the scanner
returns a match — the raw color score alone crossed the tracked-best
threshold, contradicting the claim that no match is returned exactly when
the best combined score is below 0.6. -/
theorem claim_c4_counterexample :
    spec_bestCombinedScore 100 100
        [{ th := 10, tw := 10, colorScore := mkRat 9 10, colorLoc := (0, 0),
           edgeScore := 0, edgeLoc := (0, 0), threshScore := 0,
           threshLoc := (0, 0) }] < 3 / 5 ∧
    find_element_by_template 100 100
        [{ th := 10, tw := 10, colorScore := mkRat 9 10, colorLoc := (0, 0),
           edgeScore := 0, edgeLoc := (0, 0), threshScore := 0,
           threshLoc := (0, 0) }] = some (5, 5) := by
  constructor
  · norm_num [spec_bestCombinedScore, fitsScreen, combinedScore]
  · norm_num [find_element_by_template, scanScales, stepScale, stepColor,
      stepCombined, fitsScreen, combinedScore, centerOf]

/-- C5 (amended): the 2x upscaled, bilateral-filtered working variant of a
small template (smaller dimension below 100px) is built only when the
CorrelationScanner performs the FIRST load for that name (a cache miss);
it is then cached and returned unchanged by every later lookup of that
name, so it is built exactly once.  In the hybrid fallback chain, however,
the FeatureMatcher loads first and caches the raw template, so a
correlation scan that runs after FeatureMatcher uses the raw, unprocessed
template, not the upscaled variant. -/
theorem claim_c5_template_cache :
    (∀ (store : TemplateStore) (name : String) (t : TImage),
      store name = some t →
      load_template_corr store [] name =
        ([(name, preprocess_small t)], some (preprocess_small t))) ∧
    (∀ (store : TemplateStore) (cache : TemplateCache) (name : String)
        (t : TImage),
      cacheLookup cache name = some t →
      load_template_corr store cache name = (cache, some t) ∧
        load_template_orb store cache name = (cache, some t)) ∧
    (∀ t : TImage, t.h < 100 ∨ t.w < 100 →
      preprocess_small t =
        { h := 2 * t.h, w := 2 * t.w, id := t.id, preprocessed := true }) ∧
    (∀ (store : TemplateStore) (name : String) (t : TImage),
      store name = some t →
      used_template_corr_after_orb store name = some t) := by
  refine ⟨?_, ?_, ?_, ?_⟩
  · intro store name t h
    simp [load_template_corr, cacheLookup, h]
  · intro store cache name t h
    exact ⟨by simp [load_template_corr, h], by simp [load_template_orb, h]⟩
  · intro t h
    simp [preprocess_small, h]
  · intro store name t h
    simp [used_template_corr_after_orb, load_template_orb, load_template_corr,
      cacheLookup, h]

/-- C5 witness: a 50x50 raw template loaded by ORB first is what the
correlation scan then uses, unchanged. -/
theorem claim_c5_template_cache_witness :
    used_template_corr_after_orb
      (fun n => if n = "t" then some ⟨50, 50, 7, false⟩ else none) "t" =
      some ⟨50, 50, 7, false⟩ :=
  claim_c5_template_cache.2.2.2 _ "t" _ (by decide)

/-- C5 counterexample: for a 50x50 template (smaller dimension below
100px), when the correlation scan runs after the feature matcher in the
fallback chain it works on the raw cached template, which is not the 2x
upscaled, bilateral-filtered variant the claim says every such scan uses
(no such variant is ever built on this path). -/
theorem claim_c5_counterexample :
    used_template_corr_after_orb
        (fun n => if n = "t" then some ⟨50, 50, 0, false⟩ else none) "t" =
      some ⟨50, 50, 0, false⟩ ∧
    preprocess_small ⟨50, 50, 0, false⟩ = ⟨100, 100, 0, true⟩ ∧
    (⟨50, 50, 0, false⟩ : TImage) ≠ preprocess_small ⟨50, 50, 0, false⟩ := by
  refine ⟨by decide, by decide, by decide⟩

/-! ## Helper lemmas for the multi-instance finder -/

theorem tooClose_comm (tw th : Nat) (p q : Loc) :
    tooClose tw th p q = tooClose tw th q p := by
  unfold tooClose
  rw [show (p.1 - q.1) ^ 2 = (q.1 - p.1) ^ 2 by ring,
      show (p.2 - q.2) ^ 2 = (q.2 - p.2) ^ 2 by ring]

theorem nmsLoop_pairwise (tw th : Nat) :
    ∀ (l acc : List (Loc × ℚ)),
      acc.Pairwise (fun a b => tooClose tw th a.1 b.1 = false) →
      (nmsLoop tw th l acc).Pairwise
        (fun a b => tooClose tw th a.1 b.1 = false) := by
  intro l
  induction l with
  | nil => intro acc h; exact h
  | cons c rest ih =>
    intro acc h
    rw [nmsLoop]
    split
    · exact ih acc h
    · apply ih
      rw [List.pairwise_append]
      refine ⟨h, List.pairwise_singleton _ _, ?_⟩
      intro a ha b hb
      rw [List.mem_singleton] at hb
      subst hb
      rename_i hany
      rw [Bool.not_eq_true, List.any_eq_false] at hany
      rw [tooClose_comm]
      have := hany a ha
      simpa using this

theorem layout_sorted_perm (tw th : Nat) (cands : List Cand) :
    List.Perm (layout_sorted tw th cands) (filtered_matches_of tw th cands) := by
  rw [layout_sorted]
  split
  · split
    · exact List.perm_insertionSort _ _
    · exact List.perm_insertionSort _ _
  · exact List.Perm.refl _

theorem filtered_pairwise (tw th : Nat) (cands : List Cand) :
    (filtered_matches_of tw th cands).Pairwise
      (fun a b => tooClose tw th a.1 b.1 = false) :=
  nmsLoop_pairwise tw th _ [] List.Pairwise.nil

theorem filtered_nil_of_matches_nil (tw th : Nat) (cands : List Cand)
    (h : matchesOf tw th cands = []) :
    filtered_matches_of tw th cands = [] := by
  rw [filtered_matches_of, h]
  rfl

theorem find_all_pairwise_far (tw th : Nat) (cands : List Cand) :
    (find_all_elements_by_template tw th cands).Pairwise
      (fun p q => tooClose tw th p q = false) := by
  rw [find_all_elements_by_template]
  split
  · exact List.Pairwise.nil
  · rw [List.pairwise_map]
    exact (List.Perm.pairwise_iff
        (fun h => by rw [tooClose_comm]; exact h)
        (layout_sorted_perm tw th cands)).mpr
      (filtered_pairwise tw th cands)

theorem find_all_layout_sorted (tw th : Nat) (cands : List Cand)
    (hlen : 1 < (filtered_matches_of tw th cands).length) :
    (yRangeOf (filtered_matches_of tw th cands) <
        xRangeOf (filtered_matches_of tw th cands) →
      (find_all_elements_by_template tw th cands).Pairwise
        (fun p q : Loc => p.1 ≤ q.1)) ∧
    (¬ yRangeOf (filtered_matches_of tw th cands) <
        xRangeOf (filtered_matches_of tw th cands) →
      (find_all_elements_by_template tw th cands).Pairwise
        (fun p q : Loc => p.2 ≤ q.2)) := by
  have hne : ¬ matchesOf tw th cands = [] := by
    intro h
    rw [filtered_nil_of_matches_nil tw th cands h] at hlen
    simp at hlen
  haveI hx1 : IsTotal (Loc × ℚ) (fun a b => a.1.1 ≤ b.1.1) :=
    ⟨fun a b => le_total _ _⟩
  haveI hx2 : IsTrans (Loc × ℚ) (fun a b => a.1.1 ≤ b.1.1) :=
    ⟨fun _ _ _ hab hbc => le_trans hab hbc⟩
  haveI hy1 : IsTotal (Loc × ℚ) (fun a b => a.1.2 ≤ b.1.2) :=
    ⟨fun a b => le_total _ _⟩
  haveI hy2 : IsTrans (Loc × ℚ) (fun a b => a.1.2 ≤ b.1.2) :=
    ⟨fun _ _ _ hab hbc => le_trans hab hbc⟩
  constructor
  · intro hxy
    rw [find_all_elements_by_template, if_neg hne, List.pairwise_map,
      layout_sorted, if_pos hlen, if_pos hxy]
    exact List.sorted_insertionSort _ _
  · intro hxy
    rw [find_all_elements_by_template, if_neg hne, List.pairwise_map,
      layout_sorted, if_pos hlen, if_neg hxy]
    exact List.sorted_insertionSort _ _

/-- C7: every MatchSet returned by the multi-instance finder satisfies:
(a) no two accepted matches have centres strictly closer than half the
template's larger dimension (`tooClose` is false for every pair, in
accepted order); (b) with more than one match, it is sorted ascending by x
when the spread of x-coordinates exceeds the spread of y-coordinates,
else ascending by y; and (c) concretely, two placements with centres at
x=100 and x=300 on the same row come back ordered as
[match at 100, match at 300]. -/
theorem claim_c7_matchset_invariants :
    (∀ (tw th : Nat) (cands : List Cand),
      (find_all_elements_by_template tw th cands).Pairwise
        (fun p q => tooClose tw th p q = false)) ∧
    (∀ (tw th : Nat) (cands : List Cand),
      1 < (filtered_matches_of tw th cands).length →
      (yRangeOf (filtered_matches_of tw th cands) <
          xRangeOf (filtered_matches_of tw th cands) →
        (find_all_elements_by_template tw th cands).Pairwise
          (fun p q : Loc => p.1 ≤ q.1)) ∧
      (¬ yRangeOf (filtered_matches_of tw th cands) <
          xRangeOf (filtered_matches_of tw th cands) →
        (find_all_elements_by_template tw th cands).Pairwise
          (fun p q : Loc => p.2 ≤ q.2))) ∧
    (find_all_elements_by_template 20 20
        [{ x := 290, y := 90, score := mkRat 19 20 },
         { x := 90, y := 90, score := mkRat 9 10 }] =
      [(100, 100), (300, 100)]) :=
  ⟨find_all_pairwise_far, find_all_layout_sorted, by decide⟩

/-- C7 witness: on the two-placement example the returned MatchSet is
sorted ascending by x. -/
theorem claim_c7_matchset_invariants_witness :
    (find_all_elements_by_template 20 20
        [{ x := 290, y := 90, score := mkRat 19 20 },
         { x := 90, y := 90, score := mkRat 9 10 }]).Pairwise
      (fun p q : Loc => p.1 ≤ q.1) :=
  (claim_c7_matchset_invariants.2.1 20 20 _ (by decide)).1 (by decide)

/-! ## Helper lemmas for the bounds invariant -/

theorem orb_inBounds :
    ∀ (inp : OrbInput) (c : Loc), find_element_by_orb inp = some c →
      inBounds inp.screenH inp.screenW c := by
  intro inp c h
  unfold find_element_by_orb at h
  repeat' split at h
  all_goals cases h
  all_goals simp_all [inBounds]

theorem scanScales_best_spec (screenH screenW : Nat)
    (Q : Loc × Nat × Nat → Prop) (ms : List ScaleMeas)
    (hQ : ∀ m ∈ ms, Q (m.colorLoc, m.th, m.tw) ∧ Q (m.edgeLoc, m.th, m.tw) ∧
       Q (m.threshLoc, m.th, m.tw)) :
    ∀ p, (scanScales screenH screenW ms).best = some p → Q p := by
  rw [scanScales]
  have key : ∀ (l : List ScaleMeas) (st : BestState),
      (∀ m ∈ l, Q (m.colorLoc, m.th, m.tw) ∧ Q (m.edgeLoc, m.th, m.tw) ∧
        Q (m.threshLoc, m.th, m.tw)) →
      (∀ p, st.best = some p → Q p) →
      ∀ p, (l.foldl (stepScale screenH screenW) st).best = some p → Q p := by
    intro l
    induction l with
    | nil => intro st _ hst p hp; exact hst p hp
    | cons m rest ih =>
      intro st hl hst p hp
      rw [List.foldl_cons] at hp
      refine ih _ (fun x hx => hl x (List.mem_cons_of_mem m hx)) ?_ p hp
      intro q hq
      have hm := hl m (List.mem_cons_self m rest)
      rw [stepScale] at hq
      split at hq
      · rw [stepCombined] at hq
        split at hq
        · simp at hq
          subst hq
          unfold bestIndivLoc
          split
          · exact hm.1
          · split
            · exact hm.2.1
            · exact hm.2.2
        · rw [stepColor] at hq
          split at hq
          · simp at hq
            subst hq
            exact hm.1
          · exact hst q hq
      · exact hst q hq
  exact key ms _ hQ (fun p hp => by simp at hp)

theorem find_template_some (screenH screenW : Nat) (ms : List ScaleMeas)
    (c : Loc)
    (h : find_element_by_template screenH screenW ms = some c) :
    ∃ p, (scanScales screenH screenW ms).best = some p ∧ c = centerOf p := by
  rw [find_element_by_template] at h
  split at h
  · exact absurd h (by simp)
  · rcases Option.map_eq_some'.mp h with ⟨p, hp, hc⟩
    exact ⟨p, hp, hc.symm⟩

theorem template_inBounds (screenH screenW : Nat) (ms : List ScaleMeas)
    (hv : ∀ m ∈ ms, validMeas screenH screenW m) (c : Loc)
    (h : find_element_by_template screenH screenW ms = some c) :
    inBounds screenH screenW c := by
  rcases find_template_some _ _ _ _ h with ⟨p, hp, hc⟩
  have hQ := scanScales_best_spec screenH screenW
    (fun p => locInRange screenH screenW p.2.1 p.2.2 p.1 ∧
      1 ≤ p.2.1 ∧ 1 ≤ p.2.2) ms ?_ p hp
  · subst hc
    obtain ⟨⟨x, y⟩, th2, tw2⟩ := p
    rcases hQ with ⟨⟨h1, h2, h3, h4⟩, h5, h6⟩
    simp only [centerOf, inBounds]
    refine ⟨?_, ?_, ?_, ?_⟩ <;> simp_all <;> omega
  · intro m hm
    rcases hv m hm with ⟨hth, htw, hc1, hc2, hc3⟩
    exact ⟨⟨hc1, hth, htw⟩, ⟨hc2, hth, htw⟩, ⟨hc3, hth, htw⟩⟩

theorem edges_inBounds (screenH screenW : Nat) (ms : List EdgeMeas)
    (hv : ∀ m ∈ ms, validEdgeMeas screenH screenW m) (c : Loc)
    (h : find_element_by_edges screenH screenW ms = some c) :
    inBounds screenH screenW c := by
  rw [find_element_by_edges] at h
  split at h
  · exact absurd h (by simp)
  rw [edgeScan] at h
  have key : ∀ (l : List EdgeMeas) (st : ℚ × Option Loc),
      (∀ m ∈ l, validEdgeMeas screenH screenW m) →
      (∀ d : Loc, st.2 = some d → inBounds screenH screenW d) →
      ∀ d : Loc, (l.foldl (stepEdge screenH screenW) st).2 = some d →
        inBounds screenH screenW d := by
    intro l
    induction l with
    | nil => intro st _ hst d hd; exact hst d hd
    | cons m rest ih =>
      intro st hl hst d hd
      rw [List.foldl_cons] at hd
      refine ih _ (fun x hx => hl x (List.mem_cons_of_mem m hx)) ?_ d hd
      intro q hq
      rcases hl m (List.mem_cons_self m rest) with ⟨hth, htw, h1, h2, h3, h4⟩
      rw [stepEdge] at hq
      split at hq
      · split at hq
        · simp at hq
          subst hq
          simp only [inBounds]
          refine ⟨?_, ?_, ?_, ?_⟩ <;> dsimp only <;> omega
        · exact hst q hq
      · exact hst q hq
  exact key ms _ hv (fun d hd => by simp at hd) _ h

theorem nmsLoop_mem (tw th : Nat) :
    ∀ (l acc : List (Loc × ℚ)) (x : Loc × ℚ),
      x ∈ nmsLoop tw th l acc → x ∈ acc ∨ x ∈ l := by
  intro l
  induction l with
  | nil => intro acc x h; exact Or.inl h
  | cons c rest ih =>
    intro acc x h
    rw [nmsLoop] at h
    split at h
    · rcases ih acc x h with h1 | h1
      · exact Or.inl h1
      · exact Or.inr (List.mem_cons_of_mem c h1)
    · rcases ih (acc ++ [c]) x h with h1 | h1
      · rcases List.mem_append.mp h1 with h2 | h2
        · exact Or.inl h2
        · rw [List.mem_singleton] at h2
          subst h2
          exact Or.inr (List.mem_cons_self _ _)
      · exact Or.inr (List.mem_cons_of_mem c h1)

theorem find_all_inBounds (screenH screenW tw th : Nat)
    (htw : 1 ≤ tw) (hth : 1 ≤ th) (cands : List Cand)
    (hv : ∀ cd ∈ cands, validCand screenH screenW tw th cd) :
    ∀ p ∈ find_all_elements_by_template tw th cands,
      inBounds screenH screenW p := by
  intro p hp
  rw [find_all_elements_by_template] at hp
  split at hp
  · simp at hp
  · rw [List.mem_map] at hp
    rcases hp with ⟨m, hm, hpm⟩
    have hm2 : m ∈ filtered_matches_of tw th cands :=
      ((layout_sorted_perm tw th cands).mem_iff).mp hm
    rw [filtered_matches_of] at hm2
    rcases nmsLoop_mem tw th _ [] m hm2 with h1 | h1
    · simp at h1
    · rw [List.mem_insertionSort] at h1
      rw [matchesOf, List.mem_map] at h1
      rcases h1 with ⟨cd, hcd, hmc⟩
      rcases hv cd hcd with ⟨g1, g2, g3, g4⟩
      subst hpm
      rw [← hmc]
      simp only [inBounds]
      refine ⟨?_, ?_, ?_, ?_⟩ <;> dsimp only <;> omega

/-- C8: every match coordinate returned by the FeatureMatcher, the
CorrelationScanner, the EdgeScanner, or the multi-instance finder lies
within the screen capture's bounds (given that the locations reported by
the external matchTemplate calls lie in that call's valid result range);
in particular the FeatureMatcher rejects a projected template centre
outside the capture and returns no match instead (its bounds guard is
part of `find_element_by_orb`, so its result needs no range hypothesis). -/
theorem claim_c8_bounds_invariant :
    (∀ (inp : OrbInput) (c : Loc), find_element_by_orb inp = some c →
      inBounds inp.screenH inp.screenW c) ∧
    (∀ (screenH screenW : Nat) (ms : List ScaleMeas),
      (∀ m ∈ ms, validMeas screenH screenW m) →
      ∀ c : Loc, find_element_by_template screenH screenW ms = some c →
        inBounds screenH screenW c) ∧
    (∀ (screenH screenW : Nat) (ms : List EdgeMeas),
      (∀ m ∈ ms, validEdgeMeas screenH screenW m) →
      ∀ c : Loc, find_element_by_edges screenH screenW ms = some c →
        inBounds screenH screenW c) ∧
    (∀ (screenH screenW tw th : Nat), 1 ≤ tw → 1 ≤ th →
      ∀ cands : List Cand,
      (∀ cd ∈ cands, validCand screenH screenW tw th cd) →
      ∀ p ∈ find_all_elements_by_template tw th cands,
        inBounds screenH screenW p) :=
  ⟨orb_inBounds,
   fun screenH screenW ms hv c h => template_inBounds screenH screenW ms hv c h,
   fun screenH screenW ms hv c h => edges_inBounds screenH screenW ms hv c h,
   fun screenH screenW tw th htw hth cands hv =>
     find_all_inBounds screenH screenW tw th htw hth cands hv⟩

/-- C8 witness: a successful ORB run projecting the centre to (50,60) on a
1000x800 capture is in bounds. -/
theorem claim_c8_bounds_invariant_witness :
    inBounds 800 1000 (50, 60) :=
  claim_c8_bounds_invariant.1
    { tkp := 20, skp := 30,
      pairs := List.replicate 12 { d1 := 10, d2 := 20, full := true, pt := (50, 60) },
      homog := some { mask := List.replicate 12 true,
                      corners := [(40, 50), (60, 50), (60, 70), (40, 70)] },
      screenW := 1000, screenH := 800 }
    (50, 60)
    (by norm_num [find_element_by_orb, good_matches_of, sorted_good_of,
      top_matches_of, meanQ, varQ, countTrue, truncQ, orbCenterX, orbCenterY,
      List.insertionSort, List.orderedInsert])

end WindowsClient
